import Mathlib

/-!
Verification development for the tuxun_agent geolocation pipeline.

Shallow embedding of the Python sources over exact rationals:
  * `ValidationModule`    — tuxun_agent/modules/validation_module.py
  * `GeolocationReasoningAgent` — tuxun_agent/agents/geolocation_reasoning_agent.py
  * `ImageProcessingAgent` — tuxun_agent/agents/image_processing_agent.py
  * `GeolocationDB`       — tuxun_agent/database/geolocation_db.py

External library calls are modelled as explicit parameters or as small
models of their documented behaviour:
  * `geopy.distance.geodesic(...).kilometers` becomes a function parameter
    `geodesic : ℚ × ℚ → ℚ × ℚ → ℚ` (the source treats it as an opaque
    distance oracle);
  * the composite "extract JSON substring via `re`, then `json.loads`" step
    becomes a parameter `loads : String → Option RawResult`, with `none`
    covering every exception the Python `try` block catches;
  * the FAISS `IndexFlatL2` is modelled by `FaissIndex` below, following
    its documented behaviour (k nearest stored vectors by L2 distance,
    results padded with index -1 when fewer than k vectors are stored).

Python floats are modelled as exact rationals; dicts whose key sets are
fixed by the source become structures, and dict keys that may be absent
become `Option` fields.
-/

/-- An alternative location entry, as produced by the LLM response:
keys latitude, longitude, confidence. -/
structure AltLocation where
  latitude : ℚ
  longitude : ℚ
  confidence : ℚ
  deriving DecidableEq, Repr

/-- The `predicted_location` dict: latitude, longitude, accuracy tier and
confidence. -/
structure PredictedLocation where
  latitude : ℚ
  longitude : ℚ
  accuracy : String
  confidence : ℚ
  deriving DecidableEq, Repr

/-- A full location prediction as returned by the reasoning agent:
`predicted_location`, `reasoning`, `alternative_locations`. -/
structure Prediction where
  predicted_location : PredictedLocation
  reasoning : String
  alternative_locations : List AltLocation
  deriving DecidableEq, Repr

/-- The metrics dict built by `ValidationModule._calculate_validation_metrics`. -/
structure ValidationMetrics where
  consistency_score : ℚ
  feature_matching_score : ℚ
  confidence_calibration : ℚ
  outlier_detection : Bool
  validation_notes : List String
  deriving DecidableEq, Repr

/-- The dict returned by `ValidationModule.validate_location_prediction`:
the prediction fields plus `validation_metrics` and `is_reliable`. -/
structure ValidatedResult where
  predicted_location : PredictedLocation
  reasoning : String
  alternative_locations : List AltLocation
  validation_metrics : ValidationMetrics
  is_reliable : Bool
  deriving DecidableEq, Repr

/-- One external source record consumed by
`cross_validate_with_external_sources`; the source's `.get` defaults for
missing keys are folded into the field values. -/
structure ExternalSource where
  source : String
  latitude : ℚ
  longitude : ℚ
  confidence : ℚ
  deriving DecidableEq, Repr

/-- An agreement entry appended when an external source is within 1 km. -/
structure ExternalAgreement where
  source : String
  distance_km : ℚ
  confidence : ℚ
  deriving DecidableEq, Repr

/-- A discrepancy entry appended when an external source is 1 km away or
more: it records both coordinate pairs. -/
structure Discrepancy where
  source : String
  distance_km : ℚ
  predicted_coords : ℚ × ℚ
  source_coords : ℚ × ℚ
  deriving DecidableEq, Repr

/-- The dict returned by `cross_validate_with_external_sources`. -/
structure CrossValidationResult where
  cross_validation_score : ℚ
  external_agreement : List ExternalAgreement
  discrepancies : List Discrepancy
  final_confidence : ℚ
  deriving DecidableEq, Repr

namespace ValidationModule

/-- `ValidationModule._check_consistency_with_alternatives`: average the
geodesic distances from the primary coordinate to each alternative, map
through `1 / (1 + avg / 10)` and clamp to at most 1.  The source computes
each distance inside a `try` that skips failures; `geodesic` here is a
total function, so no distance is skipped. -/
def check_consistency_with_alternatives (geodesic : ℚ × ℚ → ℚ × ℚ → ℚ)
    (predicted_loc : PredictedLocation) (alternatives : List AltLocation) : ℚ :=
  if alternatives = [] then 1
  else
    let predicted_coords := (predicted_loc.latitude, predicted_loc.longitude)
    let distances := alternatives.map
      (fun alt => geodesic predicted_coords (alt.latitude, alt.longitude))
    if distances = [] then 1
    else
      let avg_distance := distances.sum / (distances.length : ℚ)
      let consistency := 1 / (1 + avg_distance / 10)
      min consistency 1

/-- `ValidationModule._check_feature_consistency`: acknowledged stub, always
returns the neutral score 0.5. -/
def check_feature_consistency (predicted_loc : PredictedLocation) : ℚ :=
  let _ := predicted_loc
  1 / 2

/-- `ValidationModule._is_outlier_location`: invalid coordinate ranges, or
the fixed Pacific-Ocean bounding box. -/
def is_outlier_location (predicted_loc : PredictedLocation) : Bool :=
  let lat := predicted_loc.latitude
  let lon := predicted_loc.longitude
  if |lat| > 90 ∨ |lon| > 180 then true
  else if -5 < lat ∧ lat < 5 ∧ -170 < lon ∧ lon < -160 then true
  else false

/-- `ValidationModule._calculate_validation_metrics`.  The metrics dict is
initialised with `consistency_score = 0.0` and `feature_matching_score =
0.0`; the consistency helper is only invoked when the alternatives list is
non-empty (Python truthiness of the list), and the feature helper only when
`image_features` is truthy, here `image_features_present`. -/
def calculate_validation_metrics (geodesic : ℚ × ℚ → ℚ × ℚ → ℚ)
    (prediction : Prediction) (image_features_present : Bool) : ValidationMetrics :=
  let consistency_score :=
    if prediction.alternative_locations ≠ [] then
      check_consistency_with_alternatives geodesic prediction.predicted_location
        prediction.alternative_locations
    else 0
  let feature_matching_score :=
    if image_features_present then
      check_feature_consistency prediction.predicted_location
    else 0
  let is_outlier := is_outlier_location prediction.predicted_location
  { consistency_score := consistency_score
    feature_matching_score := feature_matching_score
    confidence_calibration := 1
    outlier_detection := is_outlier
    validation_notes :=
      if is_outlier then ["Predicted location appears to be an outlier"] else [] }

/-- `ValidationModule._adjust_confidence`: multiply by the consistency and
feature factors, halve on the outlier flag, clamp to [0, 1]. -/
def adjust_confidence (original_confidence : ℚ)
    (validation_metrics : ValidationMetrics) : ℚ :=
  let a1 := original_confidence *
    (7/10 + 3/10 * validation_metrics.consistency_score)
  let a2 := a1 * (8/10 + 2/10 * validation_metrics.feature_matching_score)
  let a3 := if validation_metrics.outlier_detection then a2 * (1/2) else a2
  max 0 (min 1 a3)

/-- `ValidationModule.validate_location_prediction`: compute the metrics,
adjust the confidence, and return the prediction with the new confidence,
the metrics and the reliability flag.  `confidence_threshold` is the
configured `CONFIDENCE_THRESHOLD` (default 0.7). -/
def validate_location_prediction (geodesic : ℚ × ℚ → ℚ × ℚ → ℚ)
    (confidence_threshold : ℚ) (prediction : Prediction)
    (image_features_present : Bool) : ValidatedResult :=
  let validation_metrics :=
    calculate_validation_metrics geodesic prediction image_features_present
  let adjusted_confidence :=
    adjust_confidence prediction.predicted_location.confidence validation_metrics
  { predicted_location :=
      { prediction.predicted_location with confidence := adjusted_confidence }
    reasoning := prediction.reasoning
    alternative_locations := prediction.alternative_locations
    validation_metrics := validation_metrics
    is_reliable := adjusted_confidence ≥ confidence_threshold }

/-- The loop body of `cross_validate_with_external_sources`: walk the
external sources in order, appending to the agreements list when the
distance is below 1 km and to the discrepancies list otherwise. -/
def cross_validate_loop (geodesic : ℚ × ℚ → ℚ × ℚ → ℚ)
    (predicted_coords : ℚ × ℚ) :
    List ExternalSource → List ExternalAgreement × List Discrepancy
  | [] => ([], [])
  | s :: rest =>
    let source_coords := (s.latitude, s.longitude)
    let distance := geodesic predicted_coords source_coords
    let tail := cross_validate_loop geodesic predicted_coords rest
    if distance < 1 then
      ({ source := s.source, distance_km := distance,
         confidence := s.confidence } :: tail.1, tail.2)
    else
      (tail.1,
       { source := s.source, distance_km := distance,
         predicted_coords := predicted_coords,
         source_coords := source_coords } :: tail.2)

/-- `ValidationModule.cross_validate_with_external_sources`.  On an empty
external list the source returns the initial result dict early, with score
0 and `final_confidence` equal to the prediction's current confidence. -/
def cross_validate_with_external_sources (geodesic : ℚ × ℚ → ℚ × ℚ → ℚ)
    (prediction : Prediction) (external_data : List ExternalSource) :
    CrossValidationResult :=
  let base_confidence := prediction.predicted_location.confidence
  if external_data = [] then
    { cross_validation_score := 0
      external_agreement := []
      discrepancies := []
      final_confidence := base_confidence }
  else
    let predicted_coords :=
      (prediction.predicted_location.latitude,
       prediction.predicted_location.longitude)
    let pair := cross_validate_loop geodesic predicted_coords external_data
    let agreements := pair.1
    let cross_validation_score :=
      if agreements ≠ [] then
        min ((agreements.map (fun a => a.confidence)).sum /
              (agreements.length : ℚ)) 1
      else 0
    let final_confidence :=
      7/10 * base_confidence + 3/10 * cross_validation_score
    { cross_validation_score := cross_validation_score
      external_agreement := agreements
      discrepancies := pair.2
      final_confidence := min final_confidence 1 }

end ValidationModule

/-- A GPS coordinate extracted from embedded metadata, as produced by
`ImageProcessingAgent.parse_exif_gps` (a dict with both keys, or `None`). -/
structure GpsCoordinate where
  latitude : ℚ
  longitude : ℚ
  deriving DecidableEq, Repr

/-- The task dict consumed by `GeolocationReasoningAgent.execute`.  Only
`exif_data` steers control flow in the source; `image_features` and
`user_context` feed the LLM prompt text, which is absorbed into the
abstract LLM outcome below. -/
structure AgentTask where
  exif_data : Option GpsCoordinate
  user_context : String
  deriving DecidableEq, Repr

/-- The observable outcome of the `requests.post` call to the LLM: either
an exception raised during the call, or a transport response with a status
code and a response body. -/
inductive LLMCallOutcome where
  | exception : LLMCallOutcome
  | response (status_code : ℕ) (content : String) : LLMCallOutcome
  deriving DecidableEq, Repr

/-- A successfully parsed LLM JSON object, at the granularity the source
inspects it: each of the three top-level keys may be absent. -/
structure RawResult where
  predicted_location : Option PredictedLocation
  reasoning : Option String
  alternative_locations : Option (List AltLocation)
  deriving DecidableEq, Repr

namespace GeolocationReasoningAgent

/-- `GeolocationReasoningAgent.get_fallback_prediction`. -/
def get_fallback_prediction : Prediction :=
  { predicted_location :=
      { latitude := 0, longitude := 0, accuracy := "low", confidence := 1/10 }
    reasoning := "Unable to determine location from available data"
    alternative_locations := [] }

/-- `GeolocationReasoningAgent.parse_llm_response`.  `loads` models the
composite step "extract the JSON substring (fenced block, else first `\x7b`
to last `\x7d`, else the stripped response) and run `json.loads`"; `none`
covers every exception the surrounding `try` catches.  On success each of
the three top-level keys that is absent is filled with its hard-coded
default. -/
def parse_llm_response (loads : String → Option RawResult)
    (response : String) : Prediction :=
  match loads response with
  | none => get_fallback_prediction
  | some result =>
    { predicted_location := result.predicted_location.getD
        { latitude := 0, longitude := 0, accuracy := "low", confidence := 1/10 }
      reasoning := result.reasoning.getD
        "Location prediction based on image features"
      alternative_locations := result.alternative_locations.getD [] }

/-- `GeolocationReasoningAgent.analyze_visual_context`: call the LLM; on a
200 response parse the first choice's content, on any other status or on an
exception return the fallback prediction. -/
def analyze_visual_context (loads : String → Option RawResult)
    (outcome : LLMCallOutcome) : Prediction :=
  match outcome with
  | LLMCallOutcome.exception => get_fallback_prediction
  | LLMCallOutcome.response status_code content =>
    if status_code = 200 then parse_llm_response loads content
    else get_fallback_prediction

/-- `GeolocationReasoningAgent.execute`: when the task carries EXIF GPS
data with both coordinates, short-circuit with the fixed high-confidence
prediction; otherwise defer to `analyze_visual_context`. -/
def execute (loads : String → Option RawResult) (outcome : LLMCallOutcome)
    (task : AgentTask) : Prediction :=
  match task.exif_data with
  | some exif =>
    { predicted_location :=
        { latitude := exif.latitude, longitude := exif.longitude,
          accuracy := "high", confidence := 95/100 }
      reasoning := "Location determined from EXIF GPS data"
      alternative_locations := [] }
  | none => analyze_visual_context loads outcome

end GeolocationReasoningAgent

/-- Model of Python's `str.upper()` on the (ASCII) hemisphere reference
tags: uppercase every character. -/
def pyUpper (s : String) : String := String.mk (s.data.map Char.toUpper)

/-- One EXIF rational value (`.num` / `.den`). -/
structure ExifRational where
  num : ℤ
  den : ℤ
  deriving DecidableEq, Repr

/-- The rational's value under float division in the source, as an exact
rational. -/
def ExifRational.toRat (r : ExifRational) : ℚ := (r.num : ℚ) / (r.den : ℚ)

/-- A GPS tag triple: degrees, minutes, seconds, each an EXIF rational. -/
structure GpsTriple where
  degrees : ExifRational
  minutes : ExifRational
  seconds : ExifRational
  deriving DecidableEq, Repr

namespace ImageProcessingAgent

/-- `ImageProcessingAgent.convert_to_degrees`: `d + m/60 + s/3600`. -/
def convert_to_degrees (value : GpsTriple) : ℚ :=
  let d := value.degrees.toRat
  let m := value.minutes.toRat
  let s := value.seconds.toRat
  d + m / 60 + s / 3600

/-- `ImageProcessingAgent.parse_exif_gps`.  The reference tags arrive as
strings (`str(tags.get(..., ''))`, so an absent tag is the empty string);
the coordinate triples are present (`some`) or absent (`none`, covering
Python falsiness of the tag lookup).  Latitude is negated when its
reference is non-empty and uppercases to "S", longitude when its reference
uppercases to "W". -/
def parse_exif_gps (lat_ref : String) (lat : Option GpsTriple)
    (lon_ref : String) (lon : Option GpsTriple) : Option GpsCoordinate :=
  match lat, lon with
  | some latv, some lonv =>
    let latitude := convert_to_degrees latv
    let longitude := convert_to_degrees lonv
    let latitude2 :=
      if lat_ref ≠ "" ∧ pyUpper lat_ref = "S" then -latitude else latitude
    let longitude2 :=
      if lon_ref ≠ "" ∧ pyUpper lon_ref = "W" then -longitude else longitude
    some { latitude := latitude2, longitude := longitude2 }
  | _, _ => none

end ImageProcessingAgent

/-- Model of the FAISS `IndexFlatL2`: a fixed dimensionality `d` and the
stored vectors in insertion order. -/
structure FaissIndex where
  d : ℕ
  vectors : List (List ℚ)
  deriving DecidableEq, Repr

/-- Squared Euclidean distance between two vectors (componentwise on the
common prefix, as both operands have the index dimensionality in use). -/
def squaredL2 (x y : List ℚ) : ℚ :=
  (List.zipWith (fun a b => (a - b) * (a - b)) x y).sum

/-- Insert a (distance, index) pair into a list sorted by distance. -/
def insertByDist (p : ℚ × ℤ) : List (ℚ × ℤ) → List (ℚ × ℤ)
  | [] => [p]
  | q :: rest => if p.1 ≤ q.1 then p :: q :: rest else q :: insertByDist p rest

/-- Sort (distance, index) pairs by distance (insertion sort). -/
def sortByDist : List (ℚ × ℤ) → List (ℚ × ℤ)
  | [] => []
  | p :: rest => insertByDist p (sortByDist rest)

/-- Model of `faiss.IndexFlatL2.search` for a single query: the k nearest
stored vectors by Euclidean distance as (distance, index) pairs; when fewer
than k vectors are stored, the remaining slots are padded with index -1
(FAISS returns -1 for empty slots; the padding distance is immaterial). -/
def FaissIndex.search (idx : FaissIndex) (query : List ℚ) (k : ℕ) :
    List (ℚ × ℤ) :=
  let scored := (List.range idx.vectors.length).map
    (fun i => (squaredL2 query (idx.vectors.getD i []), (i : ℤ)))
  let top := (sortByDist scored).take k
  top ++ List.replicate (k - top.length) ((0 : ℚ), (-1 : ℤ))

/-- The `LocationData` dataclass (the `features` field, always `None` in
the code paths modelled here, is omitted). -/
structure LocationData where
  id : ℤ
  latitude : ℚ
  longitude : ℚ
  image_path : String
  description : Option String
  deriving DecidableEq, Repr

namespace GeolocationDB

/-- The dimension-mismatch repair at the top of
`GeolocationDB.find_similar_locations`: truncate a longer query to the
index dimensionality, zero-pad a shorter one. -/
def resize_query (d : ℕ) (query_features : List ℚ) : List ℚ :=
  if query_features.length ≠ d then
    if query_features.length > d then query_features.take d
    else query_features ++ List.replicate (d - query_features.length) 0
  else query_features

/-- `GeolocationDB.find_similar_locations`: resize the query, search the
FAISS index, skip sentinel slots (index -1), and return the stub
`LocationData` records the source builds for each hit. -/
def find_similar_locations (index : FaissIndex) (query_features : List ℚ)
    (k : ℕ) : List LocationData :=
  let q := resize_query index.d query_features
  let results := index.search q k
  (results.filter (fun di => di.2 ≠ -1)).map
    (fun di =>
      { id := di.2, latitude := 0, longitude := 0, image_path := "",
        description := some "Similar location" })

end GeolocationDB

/-- Claim C1: for every original confidence `c` and every validation-metrics
record, the validator's adjusted confidence equals
`c × (0.7 + 0.3×consistency) × (0.8 + 0.2×featureScore)`, multiplied by 0.5
exactly when the outlier flag is set, the result clamped to [0, 1].
Concretely, confidence 0.85 with one alternative 6.6 km away gives
consistency 50/83 ≈ 0.602, and with feature score 0.5 and no outlier the
validated confidence is ≈ 0.674. -/
theorem C1_adjust_confidence_formula :
    (∀ (c : ℚ) (m : ValidationMetrics),
      ValidationModule.adjust_confidence c m =
        max 0 (min 1 (c * (7/10 + 3/10 * m.consistency_score) *
          (8/10 + 2/10 * m.feature_matching_score) *
          (if m.outlier_detection then 1/2 else 1)))) ∧
    (ValidationModule.validate_location_prediction (fun _ _ => 33/5) (7/10)
      { predicted_location :=
          { latitude := 48, longitude := 2, accuracy := "high",
            confidence := 85/100 }
        reasoning := "test"
        alternative_locations :=
          [{ latitude := 48, longitude := 2, confidence := 65/100 }] }
      true).validation_metrics.consistency_score = 50/83 ∧
    |(50 : ℚ)/83 - 602/1000| < 1/1000 ∧
    |(ValidationModule.validate_location_prediction (fun _ _ => 33/5) (7/10)
      { predicted_location :=
          { latitude := 48, longitude := 2, accuracy := "high",
            confidence := 85/100 }
        reasoning := "test"
        alternative_locations :=
          [{ latitude := 48, longitude := 2, confidence := 65/100 }] }
      true).predicted_location.confidence - 674/1000| < 1/1000 := by
  refine ⟨?_, ?_, by norm_num [abs_lt], ?_⟩
  · intro c m
    cases h : m.outlier_detection <;>
      simp [ValidationModule.adjust_confidence, h]
  · norm_num [ValidationModule.validate_location_prediction,
      ValidationModule.calculate_validation_metrics,
      ValidationModule.check_consistency_with_alternatives, min_def]
  · norm_num [ValidationModule.validate_location_prediction,
      ValidationModule.calculate_validation_metrics,
      ValidationModule.check_consistency_with_alternatives,
      ValidationModule.check_feature_consistency,
      ValidationModule.is_outlier_location,
      ValidationModule.adjust_confidence, min_def, max_def, abs_lt]

/-- Claim C2, counterexample: a prediction with an empty alternatives list
records consistency score 0, not the claimed 1. -/
theorem C2_counterexample :
    (ValidationModule.calculate_validation_metrics (fun _ _ => 0)
      { predicted_location :=
          { latitude := 10, longitude := 20, accuracy := "high",
            confidence := 9/10 }
        reasoning := "test"
        alternative_locations := [] } false).consistency_score = 0 ∧
    (0 : ℚ) ≠ 1 := by
  exact ⟨rfl, by norm_num⟩

/-- Claim C2, amended: the consistency score recorded in the validation
metrics equals `min(1, 1/(1 + avg/10))` (avg the mean geodesic distance
from the primary coordinate to the alternatives) when the alternatives
list is non-empty, and equals 0 when there are no alternatives — the
metrics dict's initial 0.0 is kept, the helper's vacuous 1.0 being
unreachable. -/
theorem C2_consistency_score_amended :
    ∀ (geodesic : ℚ × ℚ → ℚ × ℚ → ℚ) (p : Prediction) (feats : Bool),
      (ValidationModule.calculate_validation_metrics geodesic p
          feats).consistency_score =
        if p.alternative_locations = [] then 0
        else
          min 1 (1 / (1 +
            ((p.alternative_locations.map (fun alt =>
                geodesic
                  (p.predicted_location.latitude, p.predicted_location.longitude)
                  (alt.latitude, alt.longitude))).sum /
              (p.alternative_locations.length : ℚ)) / 10)) := by
  intro geodesic p feats
  by_cases h : p.alternative_locations = []
  · simp [ValidationModule.calculate_validation_metrics, h]
  · simp [ValidationModule.calculate_validation_metrics,
      ValidationModule.check_consistency_with_alternatives, h, min_comm]

/-- Claim C7: the outlier check flags a coordinate exactly when
`|lat| > 90` or `|lon| > 180` or it lies in the open box
(-5,5) × (-170,-160); and any prediction at (91, 0) is flagged in the
validation metrics regardless of everything else. -/
theorem C7_outlier_iff :
    (∀ loc : PredictedLocation,
      ValidationModule.is_outlier_location loc = true ↔
        (|loc.latitude| > 90 ∨ |loc.longitude| > 180 ∨
          (-5 < loc.latitude ∧ loc.latitude < 5 ∧
           -170 < loc.longitude ∧ loc.longitude < -160))) ∧
    (∀ (geodesic : ℚ × ℚ → ℚ × ℚ → ℚ) (p : Prediction) (feats : Bool),
      p.predicted_location.latitude = 91 →
      p.predicted_location.longitude = 0 →
      (ValidationModule.calculate_validation_metrics geodesic p
        feats).outlier_detection = true) := by
  constructor
  · intro loc
    simp only [ValidationModule.is_outlier_location]
    split_ifs with h1 h2 <;> simp_all <;> tauto
  · intro geodesic p feats h1 h2
    simp [ValidationModule.calculate_validation_metrics,
      ValidationModule.is_outlier_location, h1, h2]
    norm_num

/-- Claim C7, witness: the concrete prediction at (91, 0) is flagged as an
outlier in the computed validation metrics. -/
theorem C7_outlier_witness :
    (ValidationModule.calculate_validation_metrics (fun _ _ => 0)
      { predicted_location :=
          { latitude := 91, longitude := 0, accuracy := "low",
            confidence := 1/2 }
        reasoning := "test"
        alternative_locations := [] } false).outlier_detection = true :=
  C7_outlier_iff.2 (fun _ _ => 0)
    { predicted_location :=
        { latitude := 91, longitude := 0, accuracy := "low",
          confidence := 1/2 }
      reasoning := "test"
      alternative_locations := [] } false rfl rfl

/-- Claim C10: validation changes only the confidence field of the
predicted location — latitude, longitude, accuracy tier, reasoning text
and the alternatives list are identical before and after. -/
theorem C10_validate_only_confidence :
    ∀ (geodesic : ℚ × ℚ → ℚ × ℚ → ℚ) (confidence_threshold : ℚ)
      (p : Prediction) (image_features_present : Bool),
      (ValidationModule.validate_location_prediction geodesic
          confidence_threshold p
          image_features_present).predicted_location.latitude =
        p.predicted_location.latitude ∧
      (ValidationModule.validate_location_prediction geodesic
          confidence_threshold p
          image_features_present).predicted_location.longitude =
        p.predicted_location.longitude ∧
      (ValidationModule.validate_location_prediction geodesic
          confidence_threshold p
          image_features_present).predicted_location.accuracy =
        p.predicted_location.accuracy ∧
      (ValidationModule.validate_location_prediction geodesic
          confidence_threshold p image_features_present).reasoning =
        p.reasoning ∧
      (ValidationModule.validate_location_prediction geodesic
          confidence_threshold p
          image_features_present).alternative_locations =
        p.alternative_locations := by
  intro geodesic confidence_threshold p image_features_present
  exact ⟨rfl, rfl, rfl, rfl, rfl⟩

/-- Claim C3, counterexample: on a metadata-bearing task the returned
reasoning text is "Location determined from EXIF GPS data", not the
claimed "from embedded metadata". -/
theorem C3_counterexample :
    (GeolocationReasoningAgent.execute (fun _ => none)
        LLMCallOutcome.exception
        { exif_data := some { latitude := 1, longitude := 2 },
          user_context := "test" }).reasoning ≠ "from embedded metadata" := by
  decide

/-- Claim C3, amended: whenever the task's metadata coordinate is present,
the engine returns that coordinate unchanged with accuracy "high",
confidence 0.95, no alternatives and reasoning text "Location determined
from EXIF GPS data", and the result does not depend on the LLM call
outcome (no LLM call is made). -/
theorem C3_metadata_short_circuit :
    ∀ (loads : String → Option RawResult) (outcome : LLMCallOutcome)
      (task : AgentTask) (gps : GpsCoordinate),
      task.exif_data = some gps →
      GeolocationReasoningAgent.execute loads outcome task =
        { predicted_location :=
            { latitude := gps.latitude, longitude := gps.longitude,
              accuracy := "high", confidence := 95/100 }
          reasoning := "Location determined from EXIF GPS data"
          alternative_locations := [] } ∧
      (∀ (loads2 : String → Option RawResult) (outcome2 : LLMCallOutcome),
        GeolocationReasoningAgent.execute loads2 outcome2 task =
          GeolocationReasoningAgent.execute loads outcome task) := by
  intro loads outcome task gps h
  constructor
  · simp [GeolocationReasoningAgent.execute, h]
  · intro loads2 outcome2
    simp [GeolocationReasoningAgent.execute, h]

/-- Claim C3, witness: the amended theorem evaluated at a concrete
metadata-bearing task and two different LLM outcomes. -/
theorem C3_metadata_witness :
    GeolocationReasoningAgent.execute (fun _ => none)
        LLMCallOutcome.exception
        { exif_data := some { latitude := 488583/10000, longitude := 23522/10000 },
          user_context := "test" } =
      { predicted_location :=
          { latitude := 488583/10000, longitude := 23522/10000,
            accuracy := "high", confidence := 95/100 }
        reasoning := "Location determined from EXIF GPS data"
        alternative_locations := [] } ∧
    GeolocationReasoningAgent.execute (fun _ => none)
        (LLMCallOutcome.response 500 "oops")
        { exif_data := some { latitude := 488583/10000, longitude := 23522/10000 },
          user_context := "test" } =
      GeolocationReasoningAgent.execute (fun _ => none)
        LLMCallOutcome.exception
        { exif_data := some { latitude := 488583/10000, longitude := 23522/10000 },
          user_context := "test" } := by
  have h := C3_metadata_short_circuit (fun _ => none) LLMCallOutcome.exception
    { exif_data := some { latitude := 488583/10000, longitude := 23522/10000 },
      user_context := "test" }
    { latitude := 488583/10000, longitude := 23522/10000 } rfl
  exact ⟨h.1, h.2 (fun _ => none) (LLMCallOutcome.response 500 "oops")⟩

/-- Claim C4, counterexample: the fallback's reasoning text, as returned on
an exception during the LLM call, is "Unable to determine location from
available data", not the claimed "unable to determine location." -/
theorem C4_counterexample :
    (GeolocationReasoningAgent.analyze_visual_context (fun _ => none)
        LLMCallOutcome.exception).reasoning ≠
      "unable to determine location." := by
  decide

/-- Claim C4, amended: an exception during the call, a non-200 transport
response, and a parse failure on a 200 response all return (never raise)
the same fixed fallback prediction: coordinate (0,0), accuracy "low",
confidence 0.1, no alternatives, reasoning "Unable to determine location
from available data". -/
theorem C4_uniform_fallback :
    ∀ (loads : String → Option RawResult) (outcome : LLMCallOutcome),
      (outcome = LLMCallOutcome.exception ∨
        (∃ status content, outcome = LLMCallOutcome.response status content ∧
          status ≠ 200) ∨
        (∃ content, outcome = LLMCallOutcome.response 200 content ∧
          loads content = none)) →
      GeolocationReasoningAgent.analyze_visual_context loads outcome =
        { predicted_location :=
            { latitude := 0, longitude := 0, accuracy := "low",
              confidence := 1/10 }
          reasoning := "Unable to determine location from available data"
          alternative_locations := [] } := by
  intro loads outcome h
  rcases h with h | ⟨status, content, h, hs⟩ | ⟨content, h, hl⟩
  · subst h
    rfl
  · subst h
    simp [GeolocationReasoningAgent.analyze_visual_context, hs,
      GeolocationReasoningAgent.get_fallback_prediction]
  · subst h
    simp [GeolocationReasoningAgent.analyze_visual_context,
      GeolocationReasoningAgent.parse_llm_response, hl,
      GeolocationReasoningAgent.get_fallback_prediction]

/-- Claim C4, witness: the amended theorem evaluated at the three concrete
failure outcomes. -/
theorem C4_uniform_fallback_witness :
    GeolocationReasoningAgent.analyze_visual_context (fun _ => none)
        LLMCallOutcome.exception =
      { predicted_location :=
          { latitude := 0, longitude := 0, accuracy := "low",
            confidence := 1/10 }
        reasoning := "Unable to determine location from available data"
        alternative_locations := [] } ∧
    GeolocationReasoningAgent.analyze_visual_context (fun _ => none)
        (LLMCallOutcome.response 500 "server error") =
      { predicted_location :=
          { latitude := 0, longitude := 0, accuracy := "low",
            confidence := 1/10 }
        reasoning := "Unable to determine location from available data"
        alternative_locations := [] } ∧
    GeolocationReasoningAgent.analyze_visual_context (fun _ => none)
        (LLMCallOutcome.response 200 "not json") =
      { predicted_location :=
          { latitude := 0, longitude := 0, accuracy := "low",
            confidence := 1/10 }
        reasoning := "Unable to determine location from available data"
        alternative_locations := [] } :=
  ⟨C4_uniform_fallback (fun _ => none) LLMCallOutcome.exception
      (Or.inl rfl),
   C4_uniform_fallback (fun _ => none) (LLMCallOutcome.response 500 "server error")
      (Or.inr (Or.inl ⟨500, "server error", rfl, by decide⟩)),
   C4_uniform_fallback (fun _ => none) (LLMCallOutcome.response 200 "not json")
      (Or.inr (Or.inr ⟨"not json", rfl, rfl⟩))⟩

/-- Claim C5, counterexample: a parsed response whose reasoning key is
absent is normalized with the default "Location prediction based on image
features", which differs from the fallback prediction's reasoning — so the
missing field is not filled with the fallback's value for that field. -/
theorem C5_counterexample :
    (GeolocationReasoningAgent.parse_llm_response
        (fun _ => some
          { predicted_location :=
              some { latitude := 3, longitude := 4, accuracy := "high",
                     confidence := 9/10 }
            reasoning := none
            alternative_locations := some [] }) "x").reasoning ≠
      GeolocationReasoningAgent.get_fallback_prediction.reasoning := by
  decide

/-- Claim C5, amended: a successfully parsed response is normalized
field-by-field, keeping every present field as parsed; a missing
`predicted_location` or `alternative_locations` is filled with the
fallback prediction's value for that field, while a missing `reasoning` is
filled with the distinct default "Location prediction based on image
features" (not the fallback's reasoning). -/
theorem C5_field_by_field_defaults :
    ∀ (loads : String → Option RawResult) (response : String)
      (raw : RawResult),
      loads response = some raw →
      GeolocationReasoningAgent.parse_llm_response loads response =
        { predicted_location := raw.predicted_location.getD
            GeolocationReasoningAgent.get_fallback_prediction.predicted_location
          reasoning := raw.reasoning.getD
            "Location prediction based on image features"
          alternative_locations := raw.alternative_locations.getD
            GeolocationReasoningAgent.get_fallback_prediction.alternative_locations } := by
  intro loads response raw h
  simp [GeolocationReasoningAgent.parse_llm_response, h,
    GeolocationReasoningAgent.get_fallback_prediction]

/-- Claim C5, witness: the amended theorem evaluated at a concrete parsed
response missing the reasoning and alternatives keys: the parsed
predicted_location is kept, the two missing fields get their defaults. -/
theorem C5_field_by_field_witness :
    GeolocationReasoningAgent.parse_llm_response
        (fun _ => some
          { predicted_location :=
              some { latitude := 3, longitude := 4, accuracy := "high",
                     confidence := 9/10 }
            reasoning := none
            alternative_locations := none }) "x" =
      { predicted_location :=
          { latitude := 3, longitude := 4, accuracy := "high",
            confidence := 9/10 }
        reasoning := "Location prediction based on image features"
        alternative_locations := [] } :=
  C5_field_by_field_defaults
    (fun _ => some
      { predicted_location :=
          some { latitude := 3, longitude := 4, accuracy := "high",
                 confidence := 9/10 }
        reasoning := none
        alternative_locations := none }) "x"
    { predicted_location :=
        some { latitude := 3, longitude := 4, accuracy := "high",
               confidence := 9/10 }
      reasoning := none
      alternative_locations := none } rfl

/-- Unfolding of `parse_exif_gps` when both coordinate triples are
present. -/
theorem parse_exif_gps_some (lat_ref lon_ref : String) (latv lonv : GpsTriple) :
    ImageProcessingAgent.parse_exif_gps lat_ref (some latv) lon_ref (some lonv) =
      some
        { latitude :=
            if lat_ref ≠ "" ∧ pyUpper lat_ref = "S" then
              -(ImageProcessingAgent.convert_to_degrees latv)
            else ImageProcessingAgent.convert_to_degrees latv
          longitude :=
            if lon_ref ≠ "" ∧ pyUpper lon_ref = "W" then
              -(ImageProcessingAgent.convert_to_degrees lonv)
            else ImageProcessingAgent.convert_to_degrees lonv } := rfl

/-- Claim C6: the extracted decimal coordinate is `d + m/60 + s/3600`,
negated exactly when the hemisphere reference is "S" (latitude) or "W"
(longitude) and left unchanged when it is "N"/"E" or absent; concretely
D=48, M=51, S=29.76 gives ≈ 48.8583 with reference "N" and ≈ -48.8583
with reference "S". -/
theorem C6_gps_conversion :
    (∀ (latv lonv : GpsTriple) (lat_ref lon_ref : String),
      lat_ref ∈ (["N", "S", ""] : List String) →
      lon_ref ∈ (["E", "W", ""] : List String) →
      ImageProcessingAgent.convert_to_degrees latv =
        latv.degrees.toRat + latv.minutes.toRat / 60 +
          latv.seconds.toRat / 3600 ∧
      ImageProcessingAgent.parse_exif_gps lat_ref (some latv) lon_ref
          (some lonv) =
        some
          { latitude :=
              if lat_ref = "S" then
                -(ImageProcessingAgent.convert_to_degrees latv)
              else ImageProcessingAgent.convert_to_degrees latv
            longitude :=
              if lon_ref = "W" then
                -(ImageProcessingAgent.convert_to_degrees lonv)
              else ImageProcessingAgent.convert_to_degrees lonv }) ∧
    |ImageProcessingAgent.convert_to_degrees
        { degrees := { num := 48, den := 1 }, minutes := { num := 51, den := 1 },
          seconds := { num := 2976, den := 100 } } - 488583/10000| < 1/10000 ∧
    ImageProcessingAgent.parse_exif_gps "N"
        (some { degrees := { num := 48, den := 1 },
                minutes := { num := 51, den := 1 },
                seconds := { num := 2976, den := 100 } }) ""
        (some { degrees := { num := 2, den := 1 },
                minutes := { num := 21, den := 1 },
                seconds := { num := 8, den := 1 } }) =
      some
        { latitude := ImageProcessingAgent.convert_to_degrees
            { degrees := { num := 48, den := 1 },
              minutes := { num := 51, den := 1 },
              seconds := { num := 2976, den := 100 } }
          longitude := ImageProcessingAgent.convert_to_degrees
            { degrees := { num := 2, den := 1 },
              minutes := { num := 21, den := 1 },
              seconds := { num := 8, den := 1 } } } ∧
    ImageProcessingAgent.parse_exif_gps "S"
        (some { degrees := { num := 48, den := 1 },
                minutes := { num := 51, den := 1 },
                seconds := { num := 2976, den := 100 } }) ""
        (some { degrees := { num := 2, den := 1 },
                minutes := { num := 21, den := 1 },
                seconds := { num := 8, den := 1 } }) =
      some
        { latitude := -(ImageProcessingAgent.convert_to_degrees
            { degrees := { num := 48, den := 1 },
              minutes := { num := 51, den := 1 },
              seconds := { num := 2976, den := 100 } })
          longitude := ImageProcessingAgent.convert_to_degrees
            { degrees := { num := 2, den := 1 },
              minutes := { num := 21, den := 1 },
              seconds := { num := 8, den := 1 } } } := by
  refine ⟨?_, ?_,
    by rw [parse_exif_gps_some]; simp +decide,
    by rw [parse_exif_gps_some]; simp +decide⟩
  · intro latv lonv lat_ref lon_ref hlat hlon
    refine ⟨rfl, ?_⟩
    simp only [List.mem_cons, List.mem_singleton, List.not_mem_nil, or_false]
      at hlat hlon
    rw [parse_exif_gps_some]
    rcases hlat with rfl | rfl | rfl <;> rcases hlon with rfl | rfl | rfl <;>
      simp +decide
  · norm_num [ImageProcessingAgent.convert_to_degrees, ExifRational.toRat,
      abs_lt]

/-- Claim C6, witness: the general conversion statement applied at the
concrete Paris-like triple with references "N" and "E". -/
theorem C6_gps_conversion_witness :
    ImageProcessingAgent.parse_exif_gps "N"
        (some { degrees := { num := 48, den := 1 },
                minutes := { num := 51, den := 1 },
                seconds := { num := 2976, den := 100 } }) "E"
        (some { degrees := { num := 2, den := 1 },
                minutes := { num := 21, den := 1 },
                seconds := { num := 8, den := 1 } }) =
      some
        { latitude := ImageProcessingAgent.convert_to_degrees
            { degrees := { num := 48, den := 1 },
              minutes := { num := 51, den := 1 },
              seconds := { num := 2976, den := 100 } }
          longitude := ImageProcessingAgent.convert_to_degrees
            { degrees := { num := 2, den := 1 },
              minutes := { num := 21, den := 1 },
              seconds := { num := 8, den := 1 } } } := by
  have h := C6_gps_conversion.1
    { degrees := { num := 48, den := 1 }, minutes := { num := 51, den := 1 },
      seconds := { num := 2976, den := 100 } }
    { degrees := { num := 2, den := 1 }, minutes := { num := 21, den := 1 },
      seconds := { num := 8, den := 1 } } "N" "E" (by decide) (by decide)
  simpa using h.2

/-- The cross-validation loop partitions the external sources in order:
the agreement entries are exactly the sources closer than 1 km, the
discrepancy entries exactly the others. -/
theorem cross_validate_loop_eq (geodesic : ℚ × ℚ → ℚ × ℚ → ℚ)
    (predicted_coords : ℚ × ℚ) (sources : List ExternalSource) :
    ValidationModule.cross_validate_loop geodesic predicted_coords sources =
      ((sources.filter (fun s =>
          geodesic predicted_coords (s.latitude, s.longitude) < 1)).map
        (fun s =>
          { source := s.source
            distance_km := geodesic predicted_coords (s.latitude, s.longitude)
            confidence := s.confidence }),
       (sources.filter (fun s =>
          ¬ geodesic predicted_coords (s.latitude, s.longitude) < 1)).map
        (fun s =>
          { source := s.source
            distance_km := geodesic predicted_coords (s.latitude, s.longitude)
            predicted_coords := predicted_coords
            source_coords := (s.latitude, s.longitude) })) := by
  induction sources with
  | nil => rfl
  | cons s rest ih =>
    by_cases h : geodesic predicted_coords (s.latitude, s.longitude) < 1
    · simp [ValidationModule.cross_validate_loop, List.filter_cons, h, ih]
    · have h2 : 1 ≤ geodesic predicted_coords (s.latitude, s.longitude) :=
        not_lt.mp h
      simp [ValidationModule.cross_validate_loop, List.filter_cons, h, h2, ih]

/-- The mean of a non-empty list of rationals each at most 1 is at most 1. -/
theorem list_avg_le_one (l : List ℚ) (hne : l ≠ [])
    (hle : ∀ x ∈ l, x ≤ 1) : l.sum / (l.length : ℚ) ≤ 1 := by
  have hlen : 0 < (l.length : ℚ) := by
    have h := List.length_pos.2 hne
    exact_mod_cast h
  rw [div_le_one hlen]
  have h := List.sum_le_card_nsmul l 1 hle
  simpa [nsmul_eq_mul] using h

/-- Claim C8, counterexample: with an empty external list the method
returns the original confidence unchanged as `final_confidence`, not the
claimed blend `min(1, 0.7×c + 0.3×score)`. -/
theorem C8_counterexample :
    (ValidationModule.cross_validate_with_external_sources (fun _ _ => 0)
      { predicted_location :=
          { latitude := 48, longitude := 2, accuracy := "high",
            confidence := 85/100 }
        reasoning := "test"
        alternative_locations := [] } []).final_confidence = 85/100 ∧
    (ValidationModule.cross_validate_with_external_sources (fun _ _ => 0)
      { predicted_location :=
          { latitude := 48, longitude := 2, accuracy := "high",
            confidence := 85/100 }
        reasoning := "test"
        alternative_locations := [] } []).cross_validation_score = 0 ∧
    (85/100 : ℚ) ≠ min 1 (7/10 * (85/100) + 3/10 * 0) := by
  refine ⟨rfl, rfl, ?_⟩
  rw [min_eq_right (by norm_num)]
  norm_num

/-- Claim C8, amended: for every non-empty list of external sources whose
confidences are at most 1, a source counts as agreeing exactly when its
distance to the primary coordinate is below 1 km (otherwise it is recorded
as a discrepancy with both coordinate pairs), the cross-validation score
is the mean confidence of the agreeing sources (0 when none agree), and
the final blended confidence is `min(1, 0.7×c + 0.3×score)`; the adjusted
confidence from the main validation path is not touched (the method builds
a fresh result).  For the empty list the method returns score 0 and the
original confidence unchanged. -/
theorem C8_cross_validation_amended :
    (∀ (geodesic : ℚ × ℚ → ℚ × ℚ → ℚ) (p : Prediction)
       (sources : List ExternalSource),
      sources ≠ [] →
      (∀ s ∈ sources, s.confidence ≤ 1) →
      (ValidationModule.cross_validate_with_external_sources geodesic p
          sources).external_agreement =
        (sources.filter (fun s =>
            geodesic
              (p.predicted_location.latitude, p.predicted_location.longitude)
              (s.latitude, s.longitude) < 1)).map
          (fun s =>
            { source := s.source
              distance_km := geodesic
                (p.predicted_location.latitude, p.predicted_location.longitude)
                (s.latitude, s.longitude)
              confidence := s.confidence }) ∧
      (ValidationModule.cross_validate_with_external_sources geodesic p
          sources).discrepancies =
        (sources.filter (fun s =>
            ¬ geodesic
              (p.predicted_location.latitude, p.predicted_location.longitude)
              (s.latitude, s.longitude) < 1)).map
          (fun s =>
            { source := s.source
              distance_km := geodesic
                (p.predicted_location.latitude, p.predicted_location.longitude)
                (s.latitude, s.longitude)
              predicted_coords :=
                (p.predicted_location.latitude, p.predicted_location.longitude)
              source_coords := (s.latitude, s.longitude) }) ∧
      (ValidationModule.cross_validate_with_external_sources geodesic p
          sources).cross_validation_score =
        (if (sources.filter (fun s =>
              geodesic
                (p.predicted_location.latitude, p.predicted_location.longitude)
                (s.latitude, s.longitude) < 1)) = [] then 0
         else
           ((sources.filter (fun s =>
               geodesic
                 (p.predicted_location.latitude, p.predicted_location.longitude)
                 (s.latitude, s.longitude) < 1)).map
             (fun s => s.confidence)).sum /
           (((sources.filter (fun s =>
               geodesic
                 (p.predicted_location.latitude, p.predicted_location.longitude)
                 (s.latitude, s.longitude) < 1)).length : ℚ))) ∧
      (ValidationModule.cross_validate_with_external_sources geodesic p
          sources).final_confidence =
        min 1 (7/10 * p.predicted_location.confidence +
          3/10 * (ValidationModule.cross_validate_with_external_sources
            geodesic p sources).cross_validation_score)) ∧
    (∀ (geodesic : ℚ × ℚ → ℚ × ℚ → ℚ) (p : Prediction),
      (ValidationModule.cross_validate_with_external_sources geodesic p
          []).cross_validation_score = 0 ∧
      (ValidationModule.cross_validate_with_external_sources geodesic p
          []).final_confidence = p.predicted_location.confidence) := by
  constructor
  · intro geodesic p sources hne hconf
    have hloop := cross_validate_loop_eq geodesic
      (p.predicted_location.latitude, p.predicted_location.longitude) sources
    simp only [ValidationModule.cross_validate_with_external_sources,
      if_neg hne, hloop]
    refine ⟨trivial, trivial, ?_, ?_⟩
    · simp only [ne_eq, List.map_eq_nil_iff]
      by_cases hf : (sources.filter (fun s =>
          geodesic
            (p.predicted_location.latitude, p.predicted_location.longitude)
            (s.latitude, s.longitude) < 1)) = []
      · simp [hf]
      · rw [if_pos hf, if_neg hf]
        have hb : ∀ x ∈ (sources.filter (fun s =>
            geodesic
              (p.predicted_location.latitude, p.predicted_location.longitude)
              (s.latitude, s.longitude) < 1)).map (fun s => s.confidence),
            x ≤ 1 := by
          intro x hx
          obtain ⟨s, hs, rfl⟩ := List.mem_map.1 hx
          exact hconf s (List.mem_of_mem_filter hs)
        have havg := list_avg_le_one _ (by simpa using hf) hb
        rw [List.length_map] at havg
        rw [List.map_map, List.length_map]
        exact min_eq_left havg
    · exact min_comm _ _
  · intro geodesic p
    exact ⟨rfl, rfl⟩

/-- Claim C8, witness: the amended statement evaluated on a concrete
prediction (confidence 0.5) and two external sources, one agreeing at
distance 0 and one discrepant at distance 5. -/
theorem C8_cross_validation_witness :
    (ValidationModule.cross_validate_with_external_sources
      (fun _ sc => sc.1)
      { predicted_location :=
          { latitude := 48, longitude := 2, accuracy := "high",
            confidence := 1/2 }
        reasoning := "test"
        alternative_locations := [] }
      [{ source := "a", latitude := 0, longitude := 10, confidence := 8/10 },
       { source := "b", latitude := 5, longitude := 20, confidence := 9/10 }]
      ).external_agreement =
      [{ source := "a", distance_km := 0, confidence := 8/10 }] ∧
    (ValidationModule.cross_validate_with_external_sources
      (fun _ sc => sc.1)
      { predicted_location :=
          { latitude := 48, longitude := 2, accuracy := "high",
            confidence := 1/2 }
        reasoning := "test"
        alternative_locations := [] }
      [{ source := "a", latitude := 0, longitude := 10, confidence := 8/10 },
       { source := "b", latitude := 5, longitude := 20, confidence := 9/10 }]
      ).discrepancies =
      [{ source := "b", distance_km := 5, predicted_coords := (48, 2),
         source_coords := (5, 20) }] ∧
    (ValidationModule.cross_validate_with_external_sources
      (fun _ sc => sc.1)
      { predicted_location :=
          { latitude := 48, longitude := 2, accuracy := "high",
            confidence := 1/2 }
        reasoning := "test"
        alternative_locations := [] }
      [{ source := "a", latitude := 0, longitude := 10, confidence := 8/10 },
       { source := "b", latitude := 5, longitude := 20, confidence := 9/10 }]
      ).cross_validation_score = 8/10 ∧
    (ValidationModule.cross_validate_with_external_sources
      (fun _ sc => sc.1)
      { predicted_location :=
          { latitude := 48, longitude := 2, accuracy := "high",
            confidence := 1/2 }
        reasoning := "test"
        alternative_locations := [] }
      [{ source := "a", latitude := 0, longitude := 10, confidence := 8/10 },
       { source := "b", latitude := 5, longitude := 20, confidence := 9/10 }]
      ).final_confidence = 59/100 := by
  have h := C8_cross_validation_amended.1 (fun _ sc => sc.1)
    { predicted_location :=
        { latitude := 48, longitude := 2, accuracy := "high",
          confidence := 1/2 }
      reasoning := "test"
      alternative_locations := [] }
    [{ source := "a", latitude := 0, longitude := 10, confidence := 8/10 },
     { source := "b", latitude := 5, longitude := 20, confidence := 9/10 }]
    (by simp)
    (by
      intro s hs
      simp only [List.mem_cons, List.not_mem_nil, or_false] at hs
      rcases hs with rfl | rfl <;> norm_num)
  refine ⟨?_, ?_, ?_, ?_⟩
  · rw [h.1]
    norm_num [List.filter_cons]
  · rw [h.2.1]
    norm_num [List.filter_cons]
  · rw [h.2.2.1]
    norm_num [List.filter_cons]
  · rw [h.2.2.2, h.2.2.1]
    norm_num [List.filter_cons, min_def]

/-- Any member of an insertion-sorted list with `p` inserted is `p` or a
member of the original list. -/
theorem mem_insertByDist {x p : ℚ × ℤ} :
    ∀ {l : List (ℚ × ℤ)}, x ∈ insertByDist p l → x = p ∨ x ∈ l := by
  intro l
  induction l with
  | nil =>
    intro h
    simpa [insertByDist] using h
  | cons q rest ih =>
    intro h
    simp only [insertByDist] at h
    split_ifs at h with hc
    · exact (List.mem_cons.1 h).imp id id
    · rcases List.mem_cons.1 h with h1 | h1
      · exact Or.inr (List.mem_cons.2 (Or.inl h1))
      · rcases ih h1 with h2 | h2
        · exact Or.inl h2
        · exact Or.inr (List.mem_cons.2 (Or.inr h2))

/-- Sorting by distance produces no new elements. -/
theorem mem_sortByDist {x : ℚ × ℤ} :
    ∀ {l : List (ℚ × ℤ)}, x ∈ sortByDist l → x ∈ l := by
  intro l
  induction l with
  | nil =>
    intro h
    simpa [sortByDist] using h
  | cons p rest ih =>
    intro h
    simp only [sortByDist] at h
    rcases mem_insertByDist h with h1 | h1
    · simp [h1]
    · exact List.mem_cons.2 (Or.inr (ih h1))

/-- Filtering the sentinel predicate over sentinel padding gives nothing. -/
theorem filter_replicate_sentinel (k : ℕ) :
    (List.replicate k ((0 : ℚ), (-1 : ℤ))).filter
      (fun di => di.2 ≠ -1) = [] := by
  induction k with
  | zero => rfl
  | succ n ih => simp [List.replicate_succ, List.filter_cons, ih]

/-- The resized query always has the index dimensionality. -/
theorem resize_query_length (d : ℕ) (q : List ℚ) :
    (GeolocationDB.resize_query d q).length = d := by
  unfold GeolocationDB.resize_query
  split_ifs with h1 h2
  · simp only [List.length_take]
    omega
  · simp only [List.length_append, List.length_replicate]
    omega
  · omega

/-- A query already of the index dimensionality is left unchanged. -/
theorem resize_query_of_length_eq {d : ℕ} {q : List ℚ}
    (h : q.length = d) : GeolocationDB.resize_query d q = q := by
  simp [GeolocationDB.resize_query, h]

/-- Claim C9: similarity search resizes the query to the index
dimensionality (truncating when longer, zero-padding when shorter, so the
search result is invariant under pre-resizing), every returned record
points at a stored slot (sentinel -1 slots are skipped, never surfaced),
and on an empty index the result is empty for every k. -/
theorem C9_find_similar_locations :
    ∀ (index : FaissIndex) (query_features : List ℚ) (k : ℕ),
      (query_features.length > index.d →
        GeolocationDB.resize_query index.d query_features =
          query_features.take index.d) ∧
      (query_features.length < index.d →
        GeolocationDB.resize_query index.d query_features =
          query_features ++
            List.replicate (index.d - query_features.length) 0) ∧
      GeolocationDB.find_similar_locations index query_features k =
        GeolocationDB.find_similar_locations index
          (GeolocationDB.resize_query index.d query_features) k ∧
      (∀ loc ∈ GeolocationDB.find_similar_locations index query_features k,
        0 ≤ loc.id ∧ loc.id < (index.vectors.length : ℤ)) ∧
      (index.vectors = [] →
        GeolocationDB.find_similar_locations index query_features k = []) := by
  intro index query k
  refine ⟨?_, ?_, ?_, ?_, ?_⟩
  · intro h
    have hne : query.length ≠ index.d := by omega
    simp [GeolocationDB.resize_query, hne, h]
  · intro h
    have hne : query.length ≠ index.d := by omega
    have hng : ¬ query.length > index.d := by omega
    simp [GeolocationDB.resize_query, hne, hng]
  · simp only [GeolocationDB.find_similar_locations,
      resize_query_of_length_eq (resize_query_length index.d query)]
  · intro loc hloc
    simp only [GeolocationDB.find_similar_locations, List.mem_map] at hloc
    obtain ⟨di, hdi, rfl⟩ := hloc
    obtain ⟨hmem, hsc⟩ := List.mem_filter.1 hdi
    rw [decide_eq_true_eq] at hsc
    simp only [FaissIndex.search] at hmem
    rcases List.mem_append.1 hmem with hm | hm
    · have h1 := mem_sortByDist (List.mem_of_mem_take hm)
      obtain ⟨i, hi, hdi2⟩ := List.mem_map.1 h1
      have hir := List.mem_range.1 hi
      rw [← hdi2]
      refine ⟨Int.natCast_nonneg i, ?_⟩
      show (i : ℤ) < (index.vectors.length : ℤ)
      exact_mod_cast hir
    · have h1 := List.eq_of_mem_replicate hm
      rw [h1] at hsc
      exact absurd rfl hsc
  · intro hnil
    simp [GeolocationDB.find_similar_locations, FaissIndex.search, hnil,
      sortByDist, filter_replicate_sentinel]

/-- Claim C9, witness: the statement applied at a one-vector index of
dimensionality 2 with a longer query, at a shorter query, and at the empty
index. -/
theorem C9_find_similar_witness :
    GeolocationDB.resize_query 2 [(1 : ℚ), 2, 3] = [1, 2] ∧
    GeolocationDB.resize_query 2 [(1 : ℚ)] = [1, 0] ∧
    (0 : ℤ) ≤ ((⟨0, 0, 0, "", some "Similar location"⟩ : LocationData)).id ∧
    ((⟨0, 0, 0, "", some "Similar location"⟩ : LocationData)).id <
      ((⟨2, [[0, 0]]⟩ : FaissIndex).vectors.length : ℤ) ∧
    GeolocationDB.find_similar_locations ⟨2, []⟩ [(1 : ℚ), 2, 3] 5 = [] := by
  have h1 := C9_find_similar_locations ⟨2, [[0, 0]]⟩ [(1 : ℚ), 2, 3] 2
  have h2 := C9_find_similar_locations ⟨2, [[0, 0]]⟩ [(1 : ℚ)] 2
  have h3 := C9_find_similar_locations ⟨2, []⟩ [(1 : ℚ), 2, 3] 5
  have hmem : ((⟨0, 0, 0, "", some "Similar location"⟩ : LocationData)) ∈
      GeolocationDB.find_similar_locations ⟨2, [[0, 0]]⟩ [(1 : ℚ), 2, 3] 2 := by
    norm_num [GeolocationDB.find_similar_locations, FaissIndex.search,
      GeolocationDB.resize_query, squaredL2, sortByDist, insertByDist,
      List.filter_cons, List.range_succ]
  have h4 := h1.2.2.2.1 _ hmem
  refine ⟨?_, ?_, h4.1, h4.2, h3.2.2.2.2 rfl⟩
  · have h5 := h1.1 (by norm_num)
    simpa using h5
  · have h5 := h2.2.1 (by norm_num)
    simpa using h5
